import Mathlib

/-!
Verification of the browser client of the 49er GPX race analyzer.

The definitions below are a shallow embedding of the client-side
JavaScript: `formatDateTimeLocal` and the `UIController` methods of
`backend/app/static/js/utils.js` (= `ui.js`), the request builders of
`backend/app/static/js/apiClient.js`, the `AppState` store of `state.js`,
and the legacy single-file frontend `frontend/main.js`.

JavaScript numbers carried by `WindowStat` fields are modelled as exact
rationals; `Number.prototype.toFixed` is modelled by the ECMAScript
algorithm on those rationals (sign split off, then the integer n
minimising |n / 10^f - x| with ties taking the larger n, i.e. round half
up on the absolute value).  Host `Date` behaviour (parsing, UTC
rendering, local components) is not repository code, so it is
modelled by an explicit `JsRuntime` record that theorems quantify over.
-/

/-- The decimal digit character for `n < 10`, as produced by JS `String(n)`. -/
def digitChar (n : Nat) : Char := Char.ofNat (48 + n)

/-- Worker for `natDigits`; the fuel argument only bounds the recursion
depth (any fuel above the value's digit count yields the same list). -/
def natDigitsAux : Nat → Nat → List Char
  | 0, _ => []
  | fuel + 1, n =>
    if n < 10 then [digitChar n]
    else natDigitsAux fuel (n / 10) ++ [digitChar (n % 10)]

/-- Decimal digit list of a natural number, most significant first
(the digits of JS `String(n)` for an integral number). -/
def natDigits (n : Nat) : List Char := natDigitsAux (n + 1) n

/-- JS `String(n)` for a non-negative integral number. -/
def natDecimal (n : Nat) : String := ⟨natDigits n⟩

/-- JS `String(i)` for an integral number (negative numbers get a `-` sign). -/
def intDecimal (i : Int) : String :=
  if i < 0 then "-" ++ natDecimal (-i).toNat else natDecimal i.toNat

/-- JS `String.prototype.padStart(len, c)` restricted to a one-character pad. -/
def padStart (s : String) (len : Nat) (c : Char) : String :=
  ⟨List.replicate (len - s.length) c⟩ ++ s

/-- The `pad` helper of `formatDateTimeLocal`: `String(n).padStart(2, "0")`. -/
def pad2 (n : Nat) : String := padStart (natDecimal n) 2 '0'

/-- `Number.prototype.toFixed f` on a non-negative rational: the integer n
minimising the distance of `n / 10^f` to the value, ties to the larger n,
rendered with exactly `f` digits after the point (no point when `f = 0`). -/
def toFixedNonneg (q : ℚ) (f : Nat) : String :=
  let n : Nat := (⌊q * (10 : ℚ) ^ f + 1/2⌋).toNat
  if f = 0 then natDecimal n
  else natDecimal (n / 10 ^ f) ++ "." ++ padStart (natDecimal (n % 10 ^ f)) f '0'

/-- `Number.prototype.toFixed`: the ECMAScript algorithm splits off the sign
and renders the absolute value. -/
def toFixed (q : ℚ) (f : Nat) : String :=
  if q < 0 then "-" ++ toFixedNonneg (-q) f else toFixedNonneg q f

/-! ## Data model of the client

Shapes of the JSON values the client consumes, with only the fields the
embedded code reads. -/

/-- A race record as consumed by the client (`id`, `name`, `start_time`). -/
structure Race where
  id : Nat
  name : String
  start_time : String
deriving Repr, DecidableEq

/-- A boat record as consumed by the client (`id`, `sail_no`, `label_color`). -/
structure Boat where
  id : Nat
  sail_no : String
  label_color : String
deriving Repr, DecidableEq

/-- A `WindowStat` row of the `/stats` response.  Numeric JSON fields are
exact rationals; the two maneuver counts are integers emitted as-is. -/
structure WindowStat where
  boat_id : Nat
  avg_sog : ℚ
  avg_vmg : ℚ
  avg_heading : ℚ
  heading_std : ℚ
  distance_sailed : ℚ
  height_gain : ℚ
  tack_count : Nat
  gybe_count : Nat
deriving Repr, DecidableEq

/-- Local-time components of a JS `Date`: `getFullYear`, `getMonth`
(0-based), `getDate`, `getHours`, `getMinutes`. -/
structure DateParts where
  year : Int
  month : Nat
  day : Nat
  hour : Nat
  minute : Nat
deriving Repr, DecidableEq

/-- Model of the host `Date` behaviour the client code calls into:
`parseDate s` is the epoch-milliseconds value of `new Date(s)` (`none`
for an Invalid Date), `toISO` is `Date.prototype.toISOString` on a valid
date, and `dateParts s` are the local components of `new Date(s)`
(`none` again for an Invalid Date). -/
structure JsRuntime where
  parseDate : String → Option Int
  toISO : Int → String
  dateParts : String → Option DateParts

/-- `formatDateTimeLocal` of `utils.js`: empty string for a falsy input
(`null`/`undefined` modelled as `none`, the empty string as `some ""`)
and for an input that does not parse to a valid Date; otherwise
`yyyy-mm-ddThh:mm` built from the local date components with
`pad`-ding of month, day, hour and minute. -/
def formatDateTimeLocal (rt : JsRuntime) (value : Option String) : String :=
  match value with
  | none => ""
  | some v =>
    if v = "" then ""
    else
      match rt.dateParts v with
      | none => ""
      | some p =>
        intDecimal p.year ++ "-" ++ pad2 (p.month + 1) ++ "-" ++ pad2 p.day
          ++ "T" ++ pad2 p.hour ++ ":" ++ pad2 p.minute

/-! ## AppState (`state.js`)

The JS `Set` of selected boat ids is modelled as a list in insertion
order (JS `Set` iteration order); `Map` listeners as an association list
from event name to a list of opaque handler tokens.  Methods that call
`emit` return, next to the updated state, the list of
`(event, payload)` emissions in emission order; the handlers a given
emission invokes are exactly `handlersFor` of its event name. -/

/-- Payload of an `AppState.emit` call. -/
inductive Payload where
  | racesP (rs : List Race)
  | boatsP (bs : List Boat)
  | raceP (id : Nat)
  | idsP (ids : List Nat)
deriving Repr, DecidableEq

/-- The client-side store of `state.js`. -/
structure AppState where
  races : List Race
  boats : List Boat
  selectedRaceId : Option Nat
  selectedBoats : List Nat
  listeners : List (String × List Nat)
deriving Repr, DecidableEq

/-- JS `Map.prototype.set`: replace the value at an existing key in
place, otherwise append the entry. -/
def mapSet (m : List (String × List Nat)) (k : String) (v : List Nat) :
    List (String × List Nat) :=
  if m.any (fun kv => kv.1 == k) then
    m.map (fun kv => if kv.1 == k then (k, v) else kv)
  else m ++ [(k, v)]

/-- `AppState.on`: push a handler onto the event's handler list. -/
def AppState.on (st : AppState) (event : String) (handler : Nat) : AppState :=
  let current := ((st.listeners.lookup event).getD []) ++ [handler]
  { st with listeners := mapSet st.listeners event current }

/-- The handlers `AppState.emit event` invokes, in registration order. -/
def AppState.handlersFor (st : AppState) (event : String) : List Nat :=
  (st.listeners.lookup event).getD []

/-- All handlers a list of emissions invokes on a given state. -/
def AppState.handlersInvoked (st : AppState) (emits : List (String × Payload)) : List Nat :=
  emits.flatMap (fun e => st.handlersFor e.1)

/-- `AppState.getSelectedBoats`: `Array.from(this.selectedBoats)`, the
selected ids in the Set's insertion order. -/
def AppState.getSelectedBoats (st : AppState) : List Nat := st.selectedBoats

/-- `AppState.setRaces`. -/
def AppState.setRaces (st : AppState) (races : List Race) :
    AppState × List (String × Payload) :=
  ({ st with races := races }, [("races", .racesP races)])

/-- `AppState.setSelectedRace`: early return when the id already is the
selected one; otherwise select it, clear the boat selection, and emit
`selectedRace` then `boatSelection`. -/
def AppState.setSelectedRace (st : AppState) (raceId : Nat) :
    AppState × List (String × Payload) :=
  if st.selectedRaceId = some raceId then (st, [])
  else
    let st1 := { st with selectedRaceId := some raceId, selectedBoats := [] }
    (st1, [("selectedRace", .raceP raceId), ("boatSelection", .idsP st1.getSelectedBoats)])

/-- `AppState.setBoats`: store the boats, clear the selection, emit
`boats` then `boatSelection`. -/
def AppState.setBoats (st : AppState) (boats : List Boat) :
    AppState × List (String × Payload) :=
  let st1 := { st with boats := boats, selectedBoats := [] }
  (st1, [("boats", .boatsP boats), ("boatSelection", .idsP st1.getSelectedBoats)])

/-- `AppState.toggleBoat`: `Set.add` keeps insertion order and does not
move an already-present element; `Set.delete` removes it. -/
def AppState.toggleBoat (st : AppState) (boatId : Nat) (enabled : Bool) :
    AppState × List (String × Payload) :=
  let sel :=
    if enabled then
      if boatId ∈ st.selectedBoats then st.selectedBoats else st.selectedBoats ++ [boatId]
    else st.selectedBoats.filter (fun b => b ≠ boatId)
  let st1 := { st with selectedBoats := sel }
  (st1, [("boatSelection", .idsP st1.getSelectedBoats)])

/-- `AppState.getBoatById`: `this.boats.find(boat => boat.id === id) || null`. -/
def AppState.getBoatById (st : AppState) (id : Nat) : Option Boat :=
  st.boats.find? (fun b => b.id == id)

/-! ## ApiClient request builders (`apiClient.js`)

Each builder returns the `URLSearchParams` entries in append order.
The JS truthiness guards (`if (params.x)`) are modelled exactly: an
absent field, the empty string, and the number 0 all skip the append. -/

/-- Argument object of `ApiClient.getStats`. -/
structure StatsParams where
  boats : List Nat
  t0 : String
  t1 : String
  ref : Option String
  legId : Option Nat
deriving Repr, DecidableEq

/-- `ApiClient.getStats`: boats entries first, then `t0`, `t1`, `ref`
(defaulted to `"twd"` by `??`), then `legId` when truthy. -/
def ApiClient.getStatsSearch (p : StatsParams) : List (String × String) :=
  p.boats.map (fun b => ("boats", natDecimal b))
    ++ [("t0", p.t0), ("t1", p.t1), ("ref", p.ref.getD "twd")]
    ++ (match p.legId with
        | some l => if l ≠ 0 then [("legId", natDecimal l)] else []
        | none => [])

/-- Argument object of `ApiClient.getTracks`. -/
structure TracksParams where
  boats : Option (List Nat)
  t0 : Option String
  t1 : Option String
  downsample : Option Nat
deriving Repr, DecidableEq

/-- `ApiClient.getTracks`: every entry guarded by JS truthiness (an
array is always truthy, a string only when non-empty, a number only
when non-zero). -/
def ApiClient.getTracksSearch (p : TracksParams) : List (String × String) :=
  (match p.boats with
   | some bs => bs.map (fun b => ("boats", natDecimal b))
   | none => [])
    ++ (match p.t0 with
        | some t => if t ≠ "" then [("t0", t)] else []
        | none => [])
    ++ (match p.t1 with
        | some t => if t ≠ "" then [("t1", t)] else []
        | none => [])
    ++ (match p.downsample with
        | some d => if d ≠ 0 then [("downsample", natDecimal d)] else []
        | none => [])

/-- Argument object of `ApiClient.downloadCsv`. -/
structure CsvParams where
  boats : List Nat
  t0 : String
  t1 : String
  ref : Option String
deriving Repr, DecidableEq

/-- `ApiClient.downloadCsv`: boats, `t0`, `t1` always; `ref` only when
the caller passes a truthy one (`if (params.ref)`). -/
def ApiClient.downloadCsvSearch (p : CsvParams) : List (String × String) :=
  p.boats.map (fun b => ("boats", natDecimal b))
    ++ [("t0", p.t0), ("t1", p.t1)]
    ++ (match p.ref with
        | some r => if r ≠ "" then [("ref", r)] else []
        | none => [])

/-! ## UIController (`ui.js`, shipped as part of `utils.js`)

Methods that can hit `Date.prototype.toISOString` on an Invalid Date
return `Except Unit`, the `.error ()` case being the thrown
`RangeError`; `Option` distinguishes "a request/download happened"
(`some`, carrying the search entries) from the early returns that issue
none. -/

/-- `UIController.getWindowRange`: `null` when either picker value is
empty, otherwise the two `toISOString` renderings; throws when a
non-empty value parses to an Invalid Date. -/
def UIController.getWindowRange (rt : JsRuntime) (startVal endVal : String) :
    Except Unit (Option (String × String)) :=
  if startVal = "" ∨ endVal = "" then .ok none
  else
    match rt.parseDate startVal, rt.parseDate endVal with
    | some a, some b => .ok (some (rt.toISO a, rt.toISO b))
    | _, _ => .error ()

/-- The search entries of the `/stats` request `UIController.refreshStats`
issues, or `none` when it clears the table and returns early. -/
def UIController.refreshStatsRequest (rt : JsRuntime) (st : AppState)
    (startVal endVal : String) : Except Unit (Option (List (String × String))) := do
  let boatIds := st.getSelectedBoats
  let range ← UIController.getWindowRange rt startVal endVal
  match range with
  | none => pure none
  | some (t0v, t1v) =>
    if boatIds.isEmpty then pure none
    else pure (some (ApiClient.getStatsSearch ⟨boatIds, t0v, t1v, some "twd", none⟩))

/-- The search entries of the `/tracks` request
`UIController.refreshTracks` issues (`params.t0`/`params.t1` are only
set when `range?.startIso`/`range?.endIso` are truthy). -/
def UIController.refreshTracksRequest (rt : JsRuntime) (st : AppState)
    (startVal endVal : String) : Except Unit (Option (List (String × String))) :=
  let boatIds := st.getSelectedBoats
  if boatIds.isEmpty then .ok none
  else do
    let range ← UIController.getWindowRange rt startVal endVal
    let t0f := match range with
      | some (a, _) => if a ≠ "" then some a else none
      | none => none
    let t1f := match range with
      | some (_, b) => if b ≠ "" then some b else none
      | none => none
    pure (some (ApiClient.getTracksSearch ⟨some boatIds, t0f, t1f, none⟩))

/-- A CSV download the client performs: the query entries of the
`/export/csv` fetch and the `link.download` filename. -/
structure CsvDownload where
  search : List (String × String)
  filename : String
deriving Repr, DecidableEq

/-- `UIController.downloadCsv`: early `alert` return (no download) when
no boat is selected or the range is `null`; otherwise one download via
`ApiClient.downloadCsv` with `{ boats, t0, t1 }` (no `ref` key) saved as
`window_stats.csv`. -/
def UIController.downloadCsv (rt : JsRuntime) (st : AppState)
    (startVal endVal : String) : Except Unit (Option CsvDownload) := do
  let boatIds := st.getSelectedBoats
  let range ← UIController.getWindowRange rt startVal endVal
  match range with
  | none => pure none
  | some (t0v, t1v) =>
    if boatIds.isEmpty then pure none
    else pure (some ⟨ApiClient.downloadCsvSearch ⟨boatIds, t0v, t1v, none⟩,
      "window_stats.csv"⟩)

/-- The first cell of a statistics row:
`boat?.sail_no || stat.boat_id` falls back to the numeric id when the
boat is unknown (`find` misses) or its `sail_no` is the empty (falsy)
string. -/
def boatIdCell (boats : List Boat) (id : Nat) : String :=
  match boats.find? (fun b => b.id == id) with
  | some b => if b.sail_no = "" then natDecimal id else b.sail_no
  | none => natDecimal id

/-- The cell list of one rendered statistics row, identical in
`UIController.renderStatsTable` (`ui.js`) and in `refreshStats` of
`frontend/main.js`; `textContent` turns the two counts into decimal
strings. -/
def statRowCells (boats : List Boat) (s : WindowStat) : List String :=
  [boatIdCell boats s.boat_id,
   toFixed s.avg_sog 2,
   toFixed s.avg_vmg 2,
   toFixed s.avg_heading 1,
   toFixed s.heading_std 1,
   toFixed s.distance_sailed 0,
   toFixed s.height_gain 1,
   natDecimal s.tack_count,
   natDecimal s.gybe_count]

/-- `UIController.renderStatsTable`: clears the table body and appends
one row per `WindowStat` in response order, looking boats up via
`this.state.getBoatById`. -/
def UIController.renderStatsTable (st : AppState) (stats : List WindowStat) :
    List (List String) :=
  stats.map (statRowCells st.boats)

/-! ## Legacy single-file frontend (`frontend/main.js`)

Same behaviours built directly on `URLSearchParams`; `selectedBoats` is
again the JS `Set` in insertion order. -/

/-- `refreshStats` of `main.js`, up to the fetch: early return without a
request when no boat is selected or a picker value is empty; otherwise
boats entries, `t0`, `t1` (ISO renderings), `ref=twd`. -/
def mainRefreshStatsSearch (rt : JsRuntime) (selectedBoats : List Nat)
    (startVal endVal : String) : Except Unit (Option (List (String × String))) :=
  if selectedBoats.isEmpty then .ok none
  else if startVal = "" ∨ endVal = "" then .ok none
  else
    match rt.parseDate startVal, rt.parseDate endVal with
    | some a, some b =>
      .ok (some (selectedBoats.map (fun id => ("boats", natDecimal id))
        ++ [("t0", rt.toISO a), ("t1", rt.toISO b), ("ref", "twd")]))
    | _, _ => .error ()

/-- `refreshTracks` of `main.js`, up to the fetch: boats entries always
(selection non-empty), `t0` only when the start picker is non-empty,
`t1` only when the end picker is. -/
def mainRefreshTracksSearch (rt : JsRuntime) (selectedBoats : List Nat)
    (startVal endVal : String) : Except Unit (Option (List (String × String))) :=
  if selectedBoats.isEmpty then .ok none
  else do
    let p0 ← if startVal = "" then pure []
      else match rt.parseDate startVal with
        | some a => pure [("t0", rt.toISO a)]
        | none => Except.error ()
    let p1 ← if endVal = "" then pure []
      else match rt.parseDate endVal with
        | some b => pure [("t1", rt.toISO b)]
        | none => Except.error ()
    pure (some (selectedBoats.map (fun id => ("boats", natDecimal id)) ++ p0 ++ p1))

/-- `downloadCSV` of `main.js`: early return when no boat is selected or
a picker value is empty; otherwise one fetch of `/export/csv` with
boats, `t0`, `t1` (and no `ref`), saved as `window_stats.csv`. -/
def mainDownloadCSV (rt : JsRuntime) (selectedBoats : List Nat)
    (startVal endVal : String) : Except Unit (Option CsvDownload) :=
  if selectedBoats.isEmpty then .ok none
  else if startVal = "" ∨ endVal = "" then .ok none
  else
    match rt.parseDate startVal, rt.parseDate endVal with
    | some a, some b =>
      .ok (some ⟨selectedBoats.map (fun id => ("boats", natDecimal id))
        ++ [("t0", rt.toISO a), ("t1", rt.toISO b)], "window_stats.csv"⟩)
    | _, _ => .error ()

/-! ## Concrete fixtures (used by witnesses and counterexamples) -/

/-- A sample boat. -/
def exBoat : Boat := ⟨7, "SWE-7", "#ff0000"⟩

/-- A sample `WindowStat` for boat 7. -/
def exStat : WindowStat := ⟨7, 5, 3, 359, 12, 1234, 2, 4, 2⟩

/-- A sample `WindowStat` for boat 8 (not the selected boat of
`exState`). -/
def exStat8 : WindowStat := ⟨8, 6, 2, 12, 9, 987, 1, 3, 1⟩

/-- A sample store state: boat 7 loaded and selected, race 1 selected,
one `selectedRace` listener (token 3). -/
def exState : AppState :=
  { races := [], boats := [exBoat], selectedRaceId := some 1,
    selectedBoats := [7], listeners := [("selectedRace", [3])] }

/-- A sample host runtime: two parseable picker strings and one
decomposable date string. -/
def exRt : JsRuntime :=
  ⟨fun s => if s = "A" then some 0 else if s = "B" then some 60000 else none,
   fun n => "ISO" ++ intDecimal n,
   fun s => if s = "D" then some ⟨2024, 0, 5, 7, 3⟩ else none⟩

/-- Number of characters after the decimal point in a character list
(0 when there is no point). -/
def fracDigitsL (l : List Char) : Nat :=
  if '.' ∈ l then (l.reverse.takeWhile (fun c => c != '.')).length else 0

/-- Number of characters after the decimal point of a rendered number
(0 when it has no point) — the observable "decimal precision" of a
displayed cell. -/
def fracDigits (s : String) : Nat := fracDigitsL s.data

/-! ## Helper lemmas: decimal digit strings -/

theorem natDigitsAux_ne_nil (fuel n : Nat) (h : n < fuel) :
    natDigitsAux fuel n ≠ [] := by
  match fuel with
  | f + 1 =>
    rw [natDigitsAux]
    split
    · simp
    · simp

theorem natDigitsAux_digit (fuel : Nat) :
    ∀ n c, c ∈ natDigitsAux fuel n → ∃ m, m < 10 ∧ c = digitChar m := by
  induction fuel with
  | zero => intro n c hc; simp [natDigitsAux] at hc
  | succ f ih =>
    intro n c hc
    rw [natDigitsAux] at hc
    split at hc
    · simp at hc
      exact ⟨n, by omega, hc⟩
    · simp at hc
      rcases hc with hc | hc
      · exact ih _ _ hc
      · exact ⟨n % 10, by omega, hc⟩

theorem natDigitsAux_length_le (fuel : Nat) :
    ∀ n d, n < fuel → 0 < d → n < 10 ^ d → (natDigitsAux fuel n).length ≤ d := by
  induction fuel with
  | zero => intro n d h; omega
  | succ f ih =>
    intro n d hf hd hn
    rw [natDigitsAux]
    split
    · simpa using hd
    · rename_i hten
      push_neg at hten
      have hd2 : 2 ≤ d := by
        by_contra hlt
        interval_cases d
        omega
      have hrec : n / 10 < 10 ^ (d - 1) := by
        have h10 : 10 ^ d = 10 ^ (d - 1) * 10 := by
          rw [← pow_succ]
          congr 1
          omega
        omega
      have hfuel : n / 10 < f := by
        have := Nat.div_lt_self (by omega : 0 < n) (by omega : 1 < 10)
        omega
      have := ih (n / 10) (d - 1) hfuel (by omega) hrec
      simp only [List.length_append, List.length_cons, List.length_nil]
      omega

theorem natDigitsAux_length_gt (fuel : Nat) :
    ∀ n d, n < fuel → 10 ^ d ≤ n → d < (natDigitsAux fuel n).length := by
  induction fuel with
  | zero => intro n d h; omega
  | succ f ih =>
    intro n d hf hn
    rw [natDigitsAux]
    split
    · rename_i hten
      have : d = 0 := by
        by_contra hd
        have : 10 ≤ 10 ^ d := by
          calc 10 = 10 ^ 1 := (pow_one 10).symm
          _ ≤ 10 ^ d := Nat.pow_le_pow_right (by omega) (by omega)
        omega
      simp [this]
    · rename_i hten
      push_neg at hten
      have hfuel : n / 10 < f := by
        have := Nat.div_lt_self (by omega : 0 < n) (by omega : 1 < 10)
        omega
      simp only [List.length_append, List.length_cons, List.length_nil]
      match d with
      | 0 =>
        have := natDigitsAux_ne_nil f (n / 10) hfuel
        have : 0 < (natDigitsAux f (n / 10)).length := List.length_pos.mpr this
        omega
      | e + 1 =>
        have hrec : 10 ^ e ≤ n / 10 := by
          have h10 : 10 ^ (e + 1) = 10 ^ e * 10 := pow_succ 10 e
          omega
        have := ih (n / 10) e hfuel hrec
        omega

theorem natDecimal_length_le (n d : Nat) (hd : 0 < d) (hn : n < 10 ^ d) :
    (natDecimal n).length ≤ d := by
  rw [natDecimal, String.length_mk]
  exact natDigitsAux_length_le (n + 1) n d (Nat.lt_succ_self n) hd hn

theorem natDecimal_length_gt (n d : Nat) (hn : 10 ^ d ≤ n) :
    d < (natDecimal n).length := by
  rw [natDecimal, String.length_mk]
  exact natDigitsAux_length_gt (n + 1) n d (Nat.lt_succ_self n) hn

theorem padStart_length (s : String) (len : Nat) (c : Char) :
    (padStart s len c).length = max len s.length := by
  rw [padStart, String.length_append, String.length_mk, List.length_replicate]
  omega

theorem pad2_length (n : Nat) (hn : n < 100) : (pad2 n).length = 2 := by
  rw [pad2, padStart_length]
  have := natDecimal_length_le n 2 (by omega) (by omega)
  omega

theorem digitChar_ne_dot (m : Nat) (hm : m < 10) : digitChar m ≠ '.' := by
  interval_cases m <;> decide

theorem natDigits_no_dot (n : Nat) (c : Char) (hc : c ∈ natDigits n) : c ≠ '.' := by
  obtain ⟨m, hm, rfl⟩ := natDigitsAux_digit (n + 1) n c hc
  exact digitChar_ne_dot m hm

theorem takeWhile_all_append (p : Char → Bool) (l₁ l₂ : List Char)
    (h : ∀ c ∈ l₁, p c = true) (x : Char) (hx : p x = false) :
    (l₁ ++ x :: l₂).takeWhile p = l₁ := by
  induction l₁ with
  | nil => simp [List.takeWhile_cons, hx]
  | cons a as ih =>
    have ha : p a = true := h a (by simp)
    rw [List.cons_append, List.takeWhile_cons_of_pos ha,
      ih (fun c hc => h c (by simp [hc]))]

theorem fracDigitsL_of_frac (pre frac : List Char) (hfrac : ∀ c ∈ frac, c ≠ '.') :
    fracDigitsL (pre ++ '.' :: frac) = frac.length := by
  rw [fracDigitsL, if_pos (by simp)]
  have hrev : (pre ++ '.' :: frac).reverse = frac.reverse ++ '.' :: pre.reverse := by
    rw [List.reverse_append, List.reverse_cons, List.append_assoc]
    simp
  rw [hrev, takeWhile_all_append]
  · exact List.length_reverse frac
  · intro c hc
    have := hfrac c (List.mem_reverse.mp hc)
    simpa using this
  · decide

theorem fracDigitsL_of_no_dot (l : List Char) (h : '.' ∉ l) : fracDigitsL l = 0 := by
  rw [fracDigitsL, if_neg h]

theorem toFixedNonneg_data (q : ℚ) (f : Nat) (hf : 0 < f) :
    ∃ a frac, (toFixedNonneg q f).data = natDigits a ++ '.' :: frac ∧
      frac.length = f ∧ ∀ c ∈ frac, c ≠ '.' := by
  rw [toFixedNonneg]
  simp only [if_neg (by omega : ¬ f = 0)]
  set n : Nat := (⌊q * (10 : ℚ) ^ f + 1/2⌋).toNat with hn
  refine ⟨n / 10 ^ f,
    List.replicate (f - (natDecimal (n % 10 ^ f)).length) '0' ++ natDigits (n % 10 ^ f),
    ?_, ?_, ?_⟩
  · simp [String.data_append, natDecimal, padStart]
  · have hlt : n % 10 ^ f < 10 ^ f := Nat.mod_lt _ (Nat.pos_pow_of_pos f (by omega))
    have hle := natDecimal_length_le (n % 10 ^ f) f hf hlt
    simp only [List.length_append, List.length_replicate]
    rw [natDecimal, String.length_mk] at hle ⊢
    omega
  · intro c hc
    rcases List.mem_append.mp hc with hc | hc
    · have := List.eq_of_mem_replicate hc
      subst this
      decide
    · exact natDigits_no_dot _ c hc

theorem fracDigits_toFixed (q : ℚ) (f : Nat) : fracDigits (toFixed q f) = f := by
  rw [toFixed, fracDigits]
  by_cases hf : f = 0
  · subst hf
    split
    · rw [toFixedNonneg]
      simp only [if_pos rfl]
      apply fracDigitsL_of_no_dot
      intro hmem
      simp only [String.data_append, List.mem_append] at hmem
      rcases hmem with hmem | hmem
      · simp at hmem
      · exact absurd rfl (natDigits_no_dot _ '.' hmem)
    · rw [toFixedNonneg]
      simp only [if_pos rfl]
      apply fracDigitsL_of_no_dot
      intro hmem
      exact absurd rfl (natDigits_no_dot _ '.' hmem)
  · obtain ⟨a, frac, hdata, hlen, hfrac⟩ := toFixedNonneg_data (if q < 0 then -q else q) f (by omega)
    split
    · rename_i hq
      rw [if_pos hq] at hdata
      rw [String.data_append, hdata]
      have : ("-" : String).data ++ (natDigits a ++ '.' :: frac) =
          (("-" : String).data ++ natDigits a) ++ '.' :: frac := by
        rw [List.append_assoc]
      rw [this, fracDigitsL_of_frac _ _ hfrac, hlen]
    · rename_i hq
      rw [if_neg hq] at hdata
      rw [hdata, fracDigitsL_of_frac _ _ hfrac, hlen]

/-! ## Helper lemmas: search-parameter lists -/

theorem lookup_skip_boats (bs : List Nat) (k : String) (hk : (k == "boats") = false)
    (rest : List (String × String)) :
    ((bs.map (fun b => ("boats", natDecimal b))) ++ rest).lookup k = rest.lookup k := by
  induction bs with
  | nil => rfl
  | cons x xs ih =>
    simp only [List.map_cons, List.cons_append, List.lookup, hk]
    exact ih

theorem filterMap_not_boats (rest : List (String × String))
    (hrest : ∀ p ∈ rest, (p.1 == "boats") = false) :
    rest.filterMap (fun p => if p.1 == "boats" then some p.2 else none) = [] := by
  induction rest with
  | nil => rfl
  | cons r rs ih =>
    rw [List.filterMap_cons]
    have h1 := hrest r (by simp)
    simp only [h1, Bool.false_eq_true, if_false]
    exact ih (fun p hp => hrest p (by simp [hp]))

theorem filterMap_boats (bs : List Nat) (rest : List (String × String))
    (hrest : ∀ p ∈ rest, (p.1 == "boats") = false) :
    ((bs.map (fun b => ("boats", natDecimal b))) ++ rest).filterMap
      (fun p => if p.1 == "boats" then some p.2 else none) = bs.map natDecimal := by
  induction bs with
  | nil => simpa using filterMap_not_boats rest hrest
  | cons x xs ih =>
    have hx : (fun p : String × String => if p.1 == "boats" then some p.2 else none)
        ("boats", natDecimal x) = some (natDecimal x) := rfl
    simp only [List.map_cons, List.cons_append, List.filterMap_cons, hx]
    rw [ih]

/-! ## Claims -/

/-- C1: every rendered statistics row has exactly nine cells, in the
fixed order boat identifier, avg_sog, avg_vmg, avg_heading,
heading_std, distance_sailed, height_gain, tack_count, gybe_count —
the column order the CSV export is required to match. -/
theorem c1_stats_table_nine_cells (st : AppState) (stats : List WindowStat) :
    UIController.renderStatsTable st stats =
      stats.map (fun s =>
        [boatIdCell st.boats s.boat_id, toFixed s.avg_sog 2, toFixed s.avg_vmg 2,
         toFixed s.avg_heading 1, toFixed s.heading_std 1, toFixed s.distance_sailed 0,
         toFixed s.height_gain 1, natDecimal s.tack_count, natDecimal s.gybe_count]) ∧
    (UIController.renderStatsTable st stats).map List.length =
      List.replicate stats.length 9 := by
  refine ⟨rfl, ?_⟩
  rw [UIController.renderStatsTable, List.map_map]
  induction stats with
  | nil => rfl
  | cons s ss ih => simp only [List.map_cons, List.length_cons, List.replicate_succ, ih]; rfl

/-- C2: the numeric cells are rendered with fixed decimal precisions —
avg_sog and avg_vmg with 2 decimals, avg_heading and heading_std with
1, distance_sailed with 0 (whole units), height_gain with 1 — and the
rendered strings indeed carry exactly that many digits after the
point; the two maneuver counts are emitted as plain decimal integers
without rounding. -/
theorem c2_cell_precisions (boats : List Boat) (s : WindowStat) :
    statRowCells boats s =
      [boatIdCell boats s.boat_id, toFixed s.avg_sog 2, toFixed s.avg_vmg 2,
       toFixed s.avg_heading 1, toFixed s.heading_std 1, toFixed s.distance_sailed 0,
       toFixed s.height_gain 1, natDecimal s.tack_count, natDecimal s.gybe_count] ∧
    fracDigits (toFixed s.avg_sog 2) = 2 ∧
    fracDigits (toFixed s.avg_vmg 2) = 2 ∧
    fracDigits (toFixed s.avg_heading 1) = 1 ∧
    fracDigits (toFixed s.heading_std 1) = 1 ∧
    fracDigits (toFixed s.distance_sailed 0) = 0 ∧
    fracDigits (toFixed s.height_gain 1) = 1 :=
  ⟨rfl, fracDigits_toFixed _ 2, fracDigits_toFixed _ 2, fracDigits_toFixed _ 1,
    fracDigits_toFixed _ 1, fracDigits_toFixed _ 0, fracDigits_toFixed _ 1⟩

/-- C8: after `setSelectedRace` with a race id different from the
current selection and after every `setBoats`, the selected-boat set is
empty. -/
theorem c8_selection_cleared (st : AppState) (raceId : Nat) (boats : List Boat)
    (h : st.selectedRaceId ≠ some raceId) :
    (AppState.setSelectedRace st raceId).1.getSelectedBoats = [] ∧
    (AppState.setBoats st boats).1.getSelectedBoats = [] := by
  constructor
  · rw [AppState.setSelectedRace, if_neg h]
    rfl
  · rfl

/-- Witness for C8 at a concrete state. -/
theorem c8_selection_cleared_witness :
    exState.selectedRaceId ≠ some 2 ∧
    (AppState.setSelectedRace exState 2).1.getSelectedBoats = [] ∧
    (AppState.setBoats exState []).1.getSelectedBoats = [] :=
  ⟨by decide, c8_selection_cleared exState 2 [] (by decide)⟩

/-- C9: `setSelectedRace` with the currently selected race id is a
no-op: the state is returned unchanged in every field, nothing is
emitted, and no handler is invoked. -/
theorem c9_reselect_noop (st : AppState) (raceId : Nat)
    (h : st.selectedRaceId = some raceId) :
    AppState.setSelectedRace st raceId = (st, []) ∧
    (AppState.setSelectedRace st raceId).1.races = st.races ∧
    (AppState.setSelectedRace st raceId).1.boats = st.boats ∧
    (AppState.setSelectedRace st raceId).1.selectedRaceId = st.selectedRaceId ∧
    (AppState.setSelectedRace st raceId).1.selectedBoats = st.selectedBoats ∧
    (AppState.setSelectedRace st raceId).1.listeners = st.listeners ∧
    (AppState.setSelectedRace st raceId).2 = [] ∧
    AppState.handlersInvoked st (AppState.setSelectedRace st raceId).2 = [] := by
  have he : AppState.setSelectedRace st raceId = (st, []) := by
    rw [AppState.setSelectedRace, if_pos h]
  refine ⟨he, ?_, ?_, ?_, ?_, ?_, ?_, ?_⟩ <;> simp [he, AppState.handlersInvoked]

/-- Witness for C9 at a concrete state. -/
theorem c9_reselect_noop_witness :
    exState.selectedRaceId = some 1 ∧
    AppState.setSelectedRace exState 1 = (exState, []) :=
  ⟨rfl, (c9_reselect_noop exState 1 rfl).1⟩

/-- C6: when the stats response omits a selected boat (partial result),
the client still renders exactly one row per returned `WindowStat`;
the missing boat gets no row and rendering raises no failure. -/
theorem c6_partial_results (st : AppState) (stats : List WindowStat) (bId : Nat)
    (hsel : bId ∈ st.getSelectedBoats)
    (hmiss : ∀ s ∈ stats, s.boat_id ≠ bId) :
    (UIController.renderStatsTable st stats).length = stats.length ∧
    ∀ row ∈ UIController.renderStatsTable st stats,
      ∃ s, s ∈ stats ∧ s.boat_id ≠ bId ∧ row = statRowCells st.boats s := by
  constructor
  · simp [UIController.renderStatsTable]
  · intro row hrow
    obtain ⟨s, hs, rfl⟩ := List.mem_map.mp hrow
    exact ⟨s, hs, hmiss s hs, rfl⟩

/-- Witness for C6: boat 7 is selected but only boat 8 is in the
response. -/
theorem c6_partial_results_witness :
    7 ∈ exState.getSelectedBoats ∧
    (UIController.renderStatsTable exState [exStat8]).length =
      ([exStat8] : List WindowStat).length :=
  ⟨by decide,
    (c6_partial_results exState [exStat8] 7 (by decide) (by intro s hs; simp at hs; simp [hs]; decide)).1⟩

/-- C7: row i of the rendered statistics table is built from element i
of the `WindowStat` response, and the boats entries of a stats request
list exactly the selected boat ids, in the selection Set's insertion
order. -/
theorem c7_order_preserved (st : AppState) (stats : List WindowStat)
    (i : Nat) (hi : i < stats.length) (t0v t1v : String) :
    (∃ hl : i < (UIController.renderStatsTable st stats).length,
      (UIController.renderStatsTable st stats).get ⟨i, hl⟩ =
        statRowCells st.boats (stats.get ⟨i, hi⟩)) ∧
    (ApiClient.getStatsSearch ⟨st.getSelectedBoats, t0v, t1v, some "twd", none⟩).filterMap
        (fun p => if p.1 == "boats" then some p.2 else none) =
      st.getSelectedBoats.map natDecimal := by
  constructor
  · have hl : i < (UIController.renderStatsTable st stats).length := by
      simpa [UIController.renderStatsTable] using hi
    exact ⟨hl, by simp [UIController.renderStatsTable]⟩
  · rw [ApiClient.getStatsSearch]
    simp only [List.append_nil]
    apply filterMap_boats
    intro p hp
    simp only [List.mem_cons, List.mem_singleton, List.not_mem_nil, or_false] at hp
    rcases hp with rfl | rfl | rfl <;> rfl

/-- Witness for C7 at a concrete response and state. -/
theorem c7_order_preserved_witness :
    (0 < ([exStat] : List WindowStat).length) ∧
    (ApiClient.getStatsSearch ⟨exState.getSelectedBoats, "X", "Y", some "twd", none⟩).filterMap
        (fun p => if p.1 == "boats" then some p.2 else none) =
      exState.getSelectedBoats.map natDecimal :=
  ⟨by decide, (c7_order_preserved exState [exStat] 0 (by decide) "X" "Y").2⟩

/-- C10: `formatDateTimeLocal` is total: it returns the empty string
for null/undefined, empty, or unparseable input, and otherwise the
local-time rendering year-month-dayThour:minute with month, day, hour
and minute zero-padded to two digits (the year prints with four digits
for years 1000–9999). -/
theorem c10_formatDateTimeLocal_total (rt : JsRuntime) (v : String) (p : DateParts)
    (hm : p.month ≤ 11) (hd : p.day ≤ 31) (hh : p.hour ≤ 23) (hmin : p.minute ≤ 59) :
    formatDateTimeLocal rt none = "" ∧
    formatDateTimeLocal rt (some "") = "" ∧
    (rt.dateParts v = none → formatDateTimeLocal rt (some v) = "") ∧
    (v ≠ "" → rt.dateParts v = some p →
      formatDateTimeLocal rt (some v) =
        intDecimal p.year ++ "-" ++ pad2 (p.month + 1) ++ "-" ++ pad2 p.day
          ++ "T" ++ pad2 p.hour ++ ":" ++ pad2 p.minute ∧
      (pad2 (p.month + 1)).length = 2 ∧ (pad2 p.day).length = 2 ∧
      (pad2 p.hour).length = 2 ∧ (pad2 p.minute).length = 2 ∧
      (1000 ≤ p.year → p.year ≤ 9999 → (intDecimal p.year).length = 4)) := by
  refine ⟨rfl, rfl, ?_, ?_⟩
  · intro hnone
    by_cases hv : v = ""
    · simp [formatDateTimeLocal, hv]
    · simp [formatDateTimeLocal, hv, hnone]
  · intro hv hp
    refine ⟨by simp [formatDateTimeLocal, hv, hp], pad2_length _ (by omega),
      pad2_length _ (by omega), pad2_length _ (by omega), pad2_length _ (by omega), ?_⟩
    intro hy1 hy2
    rw [intDecimal, if_neg (by omega)]
    have h1 : (natDecimal p.year.toNat).length ≤ 4 :=
      natDecimal_length_le p.year.toNat 4 (by omega) (by omega)
    have h2 : 3 < (natDecimal p.year.toNat).length :=
      natDecimal_length_gt p.year.toNat 3 (by omega)
    omega

/-- Witness for C10 at a concrete runtime and date. -/
theorem c10_formatDateTimeLocal_total_witness :
    formatDateTimeLocal exRt none = "" ∧
    formatDateTimeLocal exRt (some "") = "" :=
  ⟨(c10_formatDateTimeLocal_total exRt "D" ⟨2024, 0, 5, 7, 3⟩
      (by decide) (by decide) (by decide) (by decide)).1,
   (c10_formatDateTimeLocal_total exRt "D" ⟨2024, 0, 5, 7, 3⟩
      (by decide) (by decide) (by decide) (by decide)).2.1⟩

/-! ## Helper lemmas: reductions of the request flows -/

theorem getWindowRange_ok (rt : JsRuntime) (s e : String) (a b : Int)
    (hs : s ≠ "") (he : e ≠ "")
    (hpa : rt.parseDate s = some a) (hpb : rt.parseDate e = some b) :
    UIController.getWindowRange rt s e = .ok (some (rt.toISO a, rt.toISO b)) := by
  rw [UIController.getWindowRange, if_neg (by tauto), hpa, hpb]

theorem refreshStats_ok (rt : JsRuntime) (st : AppState) (x : Nat) (xs : List Nat)
    (s e : String) (a b : Int)
    (hsel : st.getSelectedBoats = x :: xs)
    (hs : s ≠ "") (he : e ≠ "")
    (hpa : rt.parseDate s = some a) (hpb : rt.parseDate e = some b) :
    UIController.refreshStatsRequest rt st s e =
      .ok (some (ApiClient.getStatsSearch ⟨x :: xs, rt.toISO a, rt.toISO b, some "twd", none⟩)) := by
  rw [UIController.refreshStatsRequest]
  rw [getWindowRange_ok rt s e a b hs he hpa hpb]
  simp [hsel, Except.bind]
  rfl

theorem tracks_ok (rt : JsRuntime) (st : AppState) (x : Nat) (xs : List Nat)
    (s e : String) (a b : Int)
    (hsel : st.getSelectedBoats = x :: xs)
    (hs : s ≠ "") (he : e ≠ "")
    (hpa : rt.parseDate s = some a) (hpb : rt.parseDate e = some b)
    (hta : rt.toISO a ≠ "") (htb : rt.toISO b ≠ "") :
    UIController.refreshTracksRequest rt st s e =
      .ok (some (ApiClient.getTracksSearch
        ⟨some (x :: xs), some (rt.toISO a), some (rt.toISO b), none⟩)) := by
  rw [UIController.refreshTracksRequest]
  rw [hsel]
  simp only [List.isEmpty_cons, Bool.false_eq_true, if_false]
  rw [getWindowRange_ok rt s e a b hs he hpa hpb]
  simp [Except.bind, hta, htb]

theorem csv_ok (rt : JsRuntime) (st : AppState) (x : Nat) (xs : List Nat)
    (s e : String) (a b : Int)
    (hsel : st.getSelectedBoats = x :: xs)
    (hs : s ≠ "") (he : e ≠ "")
    (hpa : rt.parseDate s = some a) (hpb : rt.parseDate e = some b) :
    UIController.downloadCsv rt st s e =
      .ok (some ⟨ApiClient.downloadCsvSearch ⟨x :: xs, rt.toISO a, rt.toISO b, none⟩,
        "window_stats.csv"⟩) := by
  rw [UIController.downloadCsv]
  rw [getWindowRange_ok rt s e a b hs he hpa hpb]
  simp [hsel, Except.bind]
  rfl

theorem mainStats_ok (rt : JsRuntime) (x : Nat) (xs : List Nat)
    (s e : String) (a b : Int)
    (hs : s ≠ "") (he : e ≠ "")
    (hpa : rt.parseDate s = some a) (hpb : rt.parseDate e = some b) :
    mainRefreshStatsSearch rt (x :: xs) s e =
      .ok (some ((x :: xs).map (fun id => ("boats", natDecimal id))
        ++ [("t0", rt.toISO a), ("t1", rt.toISO b), ("ref", "twd")])) := by
  rw [mainRefreshStatsSearch]
  simp only [List.isEmpty_cons, Bool.false_eq_true, if_false]
  rw [if_neg (by tauto), hpa, hpb]

theorem mainTracks_ok (rt : JsRuntime) (x : Nat) (xs : List Nat)
    (s e : String) (a b : Int)
    (hs : s ≠ "") (he : e ≠ "")
    (hpa : rt.parseDate s = some a) (hpb : rt.parseDate e = some b) :
    mainRefreshTracksSearch rt (x :: xs) s e =
      .ok (some ((x :: xs).map (fun id => ("boats", natDecimal id))
        ++ [("t0", rt.toISO a)] ++ [("t1", rt.toISO b)])) := by
  rw [mainRefreshTracksSearch]
  simp only [List.isEmpty_cons, Bool.false_eq_true, if_false]
  simp only [if_neg hs, if_neg he, hpa, hpb]
  rfl

theorem mainCsv_ok (rt : JsRuntime) (x : Nat) (xs : List Nat)
    (s e : String) (a b : Int)
    (hs : s ≠ "") (he : e ≠ "")
    (hpa : rt.parseDate s = some a) (hpb : rt.parseDate e = some b) :
    mainDownloadCSV rt (x :: xs) s e =
      .ok (some ⟨(x :: xs).map (fun id => ("boats", natDecimal id))
        ++ [("t0", rt.toISO a), ("t1", rt.toISO b)], "window_stats.csv"⟩) := by
  rw [mainDownloadCSV]
  simp only [List.isEmpty_cons, Bool.false_eq_true, if_false]
  rw [if_neg (by tauto), hpa, hpb]

theorem getStatsSearch_eq (bs : List Nat) (A B : String) :
    ApiClient.getStatsSearch ⟨bs, A, B, some "twd", none⟩ =
      bs.map (fun b => ("boats", natDecimal b)) ++ [("t0", A), ("t1", B), ("ref", "twd")] := by
  simp [ApiClient.getStatsSearch]

theorem getTracksSearch_eq (bs : List Nat) (A B : String) (hA : A ≠ "") (hB : B ≠ "") :
    ApiClient.getTracksSearch ⟨some bs, some A, some B, none⟩ =
      bs.map (fun b => ("boats", natDecimal b)) ++ [("t0", A), ("t1", B)] := by
  simp [ApiClient.getTracksSearch, hA, hB]

theorem downloadCsvSearch_eq (bs : List Nat) (A B : String) :
    ApiClient.downloadCsvSearch ⟨bs, A, B, none⟩ =
      bs.map (fun b => ("boats", natDecimal b)) ++ [("t0", A), ("t1", B)] := by
  simp [ApiClient.downloadCsvSearch]

theorem lookup_t0 (bs : List Nat) (tv : String) (rest : List (String × String)) :
    ((bs.map (fun b => ("boats", natDecimal b))) ++ ("t0", tv) :: rest).lookup "t0" = some tv := by
  rw [lookup_skip_boats bs "t0" rfl]
  simp [List.lookup]

theorem lookup_t1 (bs : List Nat) (t0v t1v : String) (rest : List (String × String)) :
    ((bs.map (fun b => ("boats", natDecimal b))) ++ ("t0", t0v) :: ("t1", t1v) :: rest).lookup "t1" =
      some t1v := by
  rw [lookup_skip_boats bs "t1" rfl]
  simp [List.lookup]

theorem lookup_ref_none (bs : List Nat) (t0v t1v : String) :
    ((bs.map (fun b => ("boats", natDecimal b))) ++ [("t0", t0v), ("t1", t1v)]).lookup "ref" =
      none := by
  rw [lookup_skip_boats bs "ref" rfl]
  simp [List.lookup]

/-- C5: whenever both picker values are non-empty and parse to valid
dates, every stats, tracks and CSV-export request of either frontend
carries t0 and t1 equal to the `toISOString` renderings of the parsed
picker values. -/
theorem c5_iso_params (rt : JsRuntime) (st : AppState) (x : Nat) (xs : List Nat)
    (s e : String) (a b : Int)
    (hsel : st.getSelectedBoats = x :: xs)
    (hs : s ≠ "") (he : e ≠ "")
    (hpa : rt.parseDate s = some a) (hpb : rt.parseDate e = some b)
    (hta : rt.toISO a ≠ "") (htb : rt.toISO b ≠ "") :
    (∃ ps, UIController.refreshStatsRequest rt st s e = .ok (some ps) ∧
      ps.lookup "t0" = some (rt.toISO a) ∧ ps.lookup "t1" = some (rt.toISO b)) ∧
    (∃ ps, UIController.refreshTracksRequest rt st s e = .ok (some ps) ∧
      ps.lookup "t0" = some (rt.toISO a) ∧ ps.lookup "t1" = some (rt.toISO b)) ∧
    (∃ dl, UIController.downloadCsv rt st s e = .ok (some dl) ∧
      dl.search.lookup "t0" = some (rt.toISO a) ∧
      dl.search.lookup "t1" = some (rt.toISO b)) ∧
    (∃ ps, mainRefreshStatsSearch rt (x :: xs) s e = .ok (some ps) ∧
      ps.lookup "t0" = some (rt.toISO a) ∧ ps.lookup "t1" = some (rt.toISO b)) ∧
    (∃ ps, mainRefreshTracksSearch rt (x :: xs) s e = .ok (some ps) ∧
      ps.lookup "t0" = some (rt.toISO a) ∧ ps.lookup "t1" = some (rt.toISO b)) ∧
    (∃ dl, mainDownloadCSV rt (x :: xs) s e = .ok (some dl) ∧
      dl.search.lookup "t0" = some (rt.toISO a) ∧
      dl.search.lookup "t1" = some (rt.toISO b)) := by
  refine ⟨⟨_, refreshStats_ok rt st x xs s e a b hsel hs he hpa hpb, ?_, ?_⟩,
    ⟨_, tracks_ok rt st x xs s e a b hsel hs he hpa hpb hta htb, ?_, ?_⟩,
    ⟨_, csv_ok rt st x xs s e a b hsel hs he hpa hpb, ?_, ?_⟩,
    ⟨_, mainStats_ok rt x xs s e a b hs he hpa hpb, ?_, ?_⟩,
    ⟨_, mainTracks_ok rt x xs s e a b hs he hpa hpb, ?_, ?_⟩,
    ⟨_, mainCsv_ok rt x xs s e a b hs he hpa hpb, ?_, ?_⟩⟩
  · rw [getStatsSearch_eq]; exact lookup_t0 _ _ _
  · rw [getStatsSearch_eq]; exact lookup_t1 _ _ _ _
  · rw [getTracksSearch_eq _ _ _ hta htb]; exact lookup_t0 _ _ _
  · rw [getTracksSearch_eq _ _ _ hta htb]; exact lookup_t1 _ _ _ _
  · rw [downloadCsvSearch_eq]; exact lookup_t0 _ _ _
  · rw [downloadCsvSearch_eq]; exact lookup_t1 _ _ _ _
  · exact lookup_t0 _ _ _
  · exact lookup_t1 _ _ _ _
  · simp only [List.append_assoc, List.singleton_append]
    exact lookup_t0 _ _ _
  · simp only [List.append_assoc, List.singleton_append]
    exact lookup_t1 _ _ _ _
  · exact lookup_t0 _ _ _
  · exact lookup_t1 _ _ _ _

/-- Witness for C5 at a concrete runtime, state and picker values. -/
theorem c5_iso_params_witness :
    exRt.parseDate "A" = some 0 ∧ exRt.parseDate "B" = some 60000 ∧
    (∃ ps, UIController.refreshStatsRequest exRt exState "A" "B" = .ok (some ps) ∧
      ps.lookup "t0" = some (exRt.toISO 0) ∧ ps.lookup "t1" = some (exRt.toISO 60000)) :=
  ⟨by decide, by decide,
    (c5_iso_params exRt exState 7 [] "A" "B" 0 60000 rfl (by decide) (by decide)
      (by decide) (by decide) (by decide) (by decide)).1⟩

/-- C3 counterexample: a concrete CSV-export request carries only
boats, t0 and t1 — no ref parameter, contradicting "carries all four
parameters". -/
theorem c3_ref_counterexample :
    UIController.downloadCsv exRt exState "A" "B" =
      .ok (some ⟨[("boats", "7"), ("t0", "ISO0"), ("t1", "ISO60000")], "window_stats.csv"⟩) ∧
    (([("boats", "7"), ("t0", "ISO0"), ("t1", "ISO60000")] : List (String × String)).map
        Prod.fst).contains "ref" = false :=
  ⟨rfl, by decide⟩

/-- C3 (amended): every CSV-export request issued with a non-empty boat
selection and parseable picker values carries exactly the boats, t0 and
t1 parameters; ref is omitted, since `ApiClient.downloadCsv` appends it
only when the caller supplies one and neither frontend caller does. -/
theorem c3_csv_params_amended (rt : JsRuntime) (st : AppState) (x : Nat) (xs : List Nat)
    (s e : String) (a b : Int)
    (hsel : st.getSelectedBoats = x :: xs)
    (hs : s ≠ "") (he : e ≠ "")
    (hpa : rt.parseDate s = some a) (hpb : rt.parseDate e = some b) :
    (∃ dl, UIController.downloadCsv rt st s e = .ok (some dl) ∧
      dl.search = (x :: xs).map (fun bid => ("boats", natDecimal bid))
        ++ [("t0", rt.toISO a), ("t1", rt.toISO b)] ∧
      dl.search.lookup "ref" = none) ∧
    (∃ dl, mainDownloadCSV rt (x :: xs) s e = .ok (some dl) ∧
      dl.search = (x :: xs).map (fun bid => ("boats", natDecimal bid))
        ++ [("t0", rt.toISO a), ("t1", rt.toISO b)] ∧
      dl.search.lookup "ref" = none) := by
  refine ⟨⟨_, csv_ok rt st x xs s e a b hsel hs he hpa hpb, ?_, ?_⟩,
    ⟨_, mainCsv_ok rt x xs s e a b hs he hpa hpb, ?_, ?_⟩⟩
  · exact downloadCsvSearch_eq _ _ _
  · rw [downloadCsvSearch_eq]; exact lookup_ref_none _ _ _
  · rfl
  · exact lookup_ref_none _ _ _

/-- Witness for the amended C3 at a concrete runtime and state. -/
theorem c3_csv_params_amended_witness :
    exState.getSelectedBoats = 7 :: [] ∧
    (∃ dl, UIController.downloadCsv exRt exState "A" "B" = .ok (some dl) ∧
      dl.search = ([7] : List Nat).map (fun bid => ("boats", natDecimal bid))
        ++ [("t0", exRt.toISO 0), ("t1", exRt.toISO 60000)] ∧
      dl.search.lookup "ref" = none) :=
  ⟨rfl, (c3_csv_params_amended exRt exState 7 [] "A" "B" 0 60000 rfl (by decide) (by decide)
    (by decide) (by decide)).1⟩

/-- C4: every CSV export actually triggered (non-empty selection,
parseable window) is saved under the filename `window_stats.csv`, in
both frontends. -/
theorem c4_filename (rt : JsRuntime) (st : AppState) (x : Nat) (xs : List Nat)
    (s e : String) (a b : Int)
    (hsel : st.getSelectedBoats = x :: xs)
    (hs : s ≠ "") (he : e ≠ "")
    (hpa : rt.parseDate s = some a) (hpb : rt.parseDate e = some b) :
    (∃ dl, UIController.downloadCsv rt st s e = .ok (some dl) ∧
      dl.filename = "window_stats.csv") ∧
    (∃ dl, mainDownloadCSV rt (x :: xs) s e = .ok (some dl) ∧
      dl.filename = "window_stats.csv") :=
  ⟨⟨_, csv_ok rt st x xs s e a b hsel hs he hpa hpb, rfl⟩,
   ⟨_, mainCsv_ok rt x xs s e a b hs he hpa hpb, rfl⟩⟩

/-- Witness for C4 at a concrete runtime and state. -/
theorem c4_filename_witness :
    exState.getSelectedBoats = 7 :: [] ∧
    (∃ dl, UIController.downloadCsv exRt exState "A" "B" = .ok (some dl) ∧
      dl.filename = "window_stats.csv") :=
  ⟨rfl, (c4_filename exRt exState 7 [] "A" "B" 0 60000 rfl (by decide) (by decide)
    (by decide) (by decide)).1⟩
